import Mathlib

/-!
Verification of the noise-monitor server (`main.js`, `sound_classifier.js`).

JS numbers are modelled as rationals (`ℚ`); every numeric literal of the
source is translated verbatim (0.55 becomes `55/100`, and so on).  A JS
value that may be `undefined` is modelled as an `Option`.  Comparisons
against a possibly-`undefined` number follow JS semantics: any `<`/`>`
comparison with `undefined` is false (`jlt`, `jgt`, `jge` below), and
`x || d` on numbers/strings takes `d` exactly when `x` is absent or falsy
(`0`, `""`), as in `jsOrQ` / `jsOrStr`.
-/

namespace NoiseMonitor

/-- JS `a < b` where `a` may be `undefined` (then the comparison is false). -/
def jlt (a : Option ℚ) (b : ℚ) : Bool :=
  match a with
  | some x => decide (x < b)
  | none => false

/-- JS `a > b` where `a` may be `undefined` (then the comparison is false). -/
def jgt (a : Option ℚ) (b : ℚ) : Bool :=
  match a with
  | some x => decide (b < x)
  | none => false

/-- JS `a >= b` where `a` may be `undefined` (then the comparison is false). -/
def jge (a : Option ℚ) (b : ℚ) : Bool :=
  match a with
  | some x => decide (b ≤ x)
  | none => false

/-- JS `a || b` on numbers: `b` when `a` is `undefined` or `0` (falsy). -/
def jsOrQ (a : Option ℚ) (b : ℚ) : ℚ :=
  match a with
  | some x => if x = 0 then b else x
  | none => b

/-- JS `a || b` on optional strings: `b` when `a` is `undefined` or `""` (falsy). -/
def jsOrStr (a b : Option String) : Option String :=
  match a with
  | some s => if s = "" then b else some s
  | none => b

/-- JS `(a || 0)` on a possibly-`undefined` number (`lastNoise || 0` in
`checkForMismatch`); `0` and `undefined` both map to `0`. -/
def jsOrZero (a : Option ℚ) : ℚ := a.getD 0

/-- Function `SoundClassifier.classifyByHeuristic` from `sound_classifier.js`
(lines 133-151).  `noiseLevel` flows in from the ingest message and may be
`undefined` in JS, hence `Option ℚ`; the four feature arguments always
receive values because `classify` destructures them with defaults before
the call. -/
def classifyByHeuristic (noiseLevel : Option ℚ) (lowFreq midFreq highFreq volatility : ℚ) :
    String :=
  if jlt noiseLevel 45 then "silence"
  else if volatility > 55/100 ∧ highFreq > 5/10 then "typing"
  else if lowFreq > 45/100 ∧ jgt noiseLevel 72 then "vehicle"
  else if |lowFreq - highFreq| < 15/100 ∧ volatility > 35/100 ∧ volatility < 65/100 then "music"
  else if midFreq > 5/10 ∧ volatility < 55/100 ∧ jgt noiseLevel 45 ∧ jlt noiseLevel 80 then
    "speech"
  else "speech"

/-- The constant `NOISE_THRESHOLD = 65` of `main.js`. -/
def NOISE_THRESHOLD : ℚ := 65

/-- The constant `INACTIVITY_MS = 15000` of `main.js`. -/
def INACTIVITY_MS : ℚ := 15000

/-- Result record of `SoundClassifier.classify` (`{ soundType, confidence }`;
the always-empty `scores` object is omitted). -/
structure Classification where
  soundType : String
  confidence : ℚ
deriving DecidableEq, Repr

/-- The optional `audioFeatures` sub-object of an ingest message. -/
structure AudioFeatures where
  lowFreqEnergy : Option ℚ := none
  midFreqEnergy : Option ℚ := none
  highFreqEnergy : Option ℚ := none
  volatility : Option ℚ := none
deriving DecidableEq, Repr

/-- Method `SoundClassifier.classify` from `sound_classifier.js` (lines 107-127) for
an initialized classifier (`main.js` awaits `initialize()` before serving).
Missing features default to `lowFreqEnergy = midFreqEnergy = highFreqEnergy
= 0.2` and `volatility = 0.3` via the destructuring defaults; the heuristic
never throws, so the catch branch is dead code. -/
def SoundClassifier.classify (noiseLevel : Option ℚ) (f : AudioFeatures) : Classification :=
  { soundType :=
      classifyByHeuristic noiseLevel (f.lowFreqEnergy.getD (2/10)) (f.midFreqEnergy.getD (2/10))
        (f.highFreqEnergy.getD (2/10)) (f.volatility.getD (3/10))
    confidence := 95/100 }

/-- The ordered decision list exactly as the specification words it
(section 4.3): rule 1 silence, rule 2 typing, rule 3 vehicle, rule 4 music,
rule 5 speech, rule 6 default speech, with missing inputs defaulted to
0.2/0.2/0.2/0.3.  Written from the spec text, to be compared with the
code-derived `SoundClassifier.classify`. -/
def classifySpecOrdered (noiseLevel : ℚ)
    (lowFreqEnergy midFreqEnergy highFreqEnergy volatility : Option ℚ) : String :=
  let lowFreq := lowFreqEnergy.getD (2/10)
  let midFreq := midFreqEnergy.getD (2/10)
  let highFreq := highFreqEnergy.getD (2/10)
  let vol := volatility.getD (3/10)
  if noiseLevel < 45 then "silence"
  else if vol > 55/100 ∧ highFreq > 5/10 then "typing"
  else if lowFreq > 45/100 ∧ noiseLevel > 72 then "vehicle"
  else if |lowFreq - highFreq| < 15/100 ∧ 35/100 < vol ∧ vol < 65/100 then "music"
  else if midFreq > 5/10 ∧ vol < 55/100 ∧ 45 < noiseLevel ∧ noiseLevel < 80 then "speech"
  else "speech"

/-- One entry of the `devices` object in `main.js`: every field starts
absent (`devices[deviceId] = devices[deviceId] || {}`) and is written by the
message handler.  `ws` is the connection back-reference, modelled as an
opaque connection number. -/
structure DeviceState where
  lastSeen : Option ℚ := none
  tableId : Option String := none
  lastNoise : Option ℚ := none
  lastSoundType : Option String := none
  classification : Option Classification := none
  ws : Option Nat := none
deriving DecidableEq, Repr

/-- The `devices` object: insertion-ordered key/value pairs, as
`Object.entries` iterates them. -/
abbrev Registry := List (String × DeviceState)

/-- Reading `devices[id]` (JS property read). -/
def lookup (r : Registry) (id : String) : Option DeviceState :=
  (r.find? (fun p => decide (p.1 = id))).map Prod.snd

/-- Writing `devices[id] = dev` (JS property write): an existing key keeps its
position in the iteration order, a new key is appended at the end. -/
def upsert (r : Registry) (id : String) (dev : DeviceState) : Registry :=
  match r with
  | [] => [(id, dev)]
  | p :: rest => if p.1 = id then (id, dev) :: rest else p :: upsert rest id dev

/-- One ingest message after `JSON.parse`, with the six destructured fields
of `main.js` line 172; any of them may be absent. -/
structure IngestMsg where
  deviceId : Option String := none
  tableId : Option String := none
  noiseLevel : Option ℚ := none
  audioFeatures : Option AudioFeatures := none
  soundType : Option String := none
  timestamp : Option ℚ := none
deriving DecidableEq, Repr

/-- Events pushed through `mainWindow.webContents.send` (modelled with the
window present), with the payload fields the source attaches. -/
inductive Event where
  | deviceData (deviceId : String) (tableId : Option String) (noiseLevel : Option ℚ)
      (soundType : String) (timestamp : ℚ)
  | noiseExceed (deviceId : String) (tableId : Option String) (noiseLevel : ℚ)
      (soundType : String) (timestamp : ℚ)
  | sensorIssue (deviceId : String) (tableId : String) (noiseLevel : ℚ)
      (peers : List (String × ℚ))
  | deviceOffline (deviceId : String) (tableId : Option String)
deriving DecidableEq, Repr

/-- Recognizes `noise_exceed` alerts. -/
def isNoiseExceed : Event → Bool
  | .noiseExceed _ _ _ _ _ => true
  | _ => false

/-- Recognizes `possible_sensor_issue` alerts. -/
def isSensorIssue : Event → Bool
  | .sensorIssue _ _ _ _ => true
  | _ => false

/-- The classification computed in the message handler: the classifier runs
exactly when the message carries an `audioFeatures` object (`soundClassifier`
itself is always set once the server is up). -/
def classificationOf (m : IngestMsg) : Option Classification :=
  m.audioFeatures.map (fun af => SoundClassifier.classify m.noiseLevel af)

/-- JS `let classifiedSoundType = soundType || 'unknown'`, overridden by the
classifier output when `audioFeatures` is present. -/
def classifiedSoundTypeOf (m : IngestMsg) : String :=
  match classificationOf m with
  | some c => c.soundType
  | none =>
    match m.soundType with
    | some s => if s = "" then "unknown" else s
    | none => "unknown"

/-- The field writes of `main.js` lines 175-192 applied to the prior entry
`old` (`{}` for a first sighting): `lastSeen = Date.now()` (the receipt
time `now`), `tableId = tableId || old.tableId`, `lastNoise = noiseLevel`
(written even when the message has none), `ws` is the connection, and
`lastSoundType` / `classification` are written only when `audioFeatures`
or a truthy `soundType` is present. -/
def upsertDevice (now : ℚ) (wsId : Nat) (m : IngestMsg) (old : DeviceState) : DeviceState :=
  { lastSeen := some now
    tableId := jsOrStr m.tableId old.tableId
    lastNoise := m.noiseLevel
    ws := some wsId
    lastSoundType :=
      match classificationOf m with
      | some c => some c.soundType
      | none =>
        match m.soundType with
        | some s => if s = "" then old.lastSoundType else some s
        | none => old.lastSoundType
    classification :=
      match classificationOf m with
      | some c => some c
      | none => old.classification }

/-- The `otherDevices` list of `checkForMismatch`: all registry entries with a
different key and `tableId === table`. -/
def otherDevicesOn (r : Registry) (d : String) (t : String) : Registry :=
  r.filter (fun p => decide (¬p.1 = d ∧ p.2.tableId = some t))

/-- Function `checkForMismatch` from `main.js` lines 255-274.  Returns early when the
triggering device is unknown or its `tableId` is falsy; otherwise compares
`lastNoise || 0` against the threshold and every same-table peer against
`NOISE_THRESHOLD - 10`. -/
def checkForMismatch (r : Registry) (d : String) : List Event :=
  match lookup r d with
  | none => []
  | some triggering =>
    match triggering.tableId with
    | none => []
    | some table =>
      if table = "" then []
      else
        let triggeredNoise := jsOrZero triggering.lastNoise
        let otherDevices := otherDevicesOn r d table
        if otherDevices.isEmpty then []
        else if decide (NOISE_THRESHOLD ≤ triggeredNoise) &&
            otherDevices.all (fun p => decide (jsOrZero p.2.lastNoise < NOISE_THRESHOLD - 10)) then
          [Event.sensorIssue d table triggeredNoise
            (otherDevices.map (fun p => (p.1, jsOrZero p.2.lastNoise)))]
        else []

/-- The `ws.on('message', ...)` handler of `main.js` lines 169-221 as a
function of the receipt time `now`, the connection `wsId`, the registry and
the decoded payload.  `none` stands for a payload `JSON.parse` throws on
(the catch only logs); a missing or falsy `deviceId` returns before any
write.  Returns the updated registry together with the events pushed to the
renderer, in emission order. -/
def handleMessage (now : ℚ) (wsId : Nat) (r : Registry) (raw : Option IngestMsg) :
    Registry × List Event :=
  match raw with
  | none => (r, [])
  | some m =>
    match m.deviceId with
    | none => (r, [])
    | some deviceId =>
      if deviceId = "" then (r, [])
      else
        let old := (lookup r deviceId).getD {}
        let dev := upsertDevice now wsId m old
        let r₁ := upsert r deviceId dev
        let cst := classifiedSoundTypeOf m
        let dataEv := Event.deviceData deviceId m.tableId m.noiseLevel cst (jsOrQ m.timestamp now)
        let alertEvs :=
          if jge m.noiseLevel NOISE_THRESHOLD then
            [Event.noiseExceed deviceId dev.tableId (jsOrZero m.noiseLevel) cst
              (jsOrQ m.timestamp now)]
          else []
        (r₁, dataEv :: alertEvs ++ checkForMismatch r₁ deviceId)

/-- The loop body of the inactivity sweep for one registry entry
(`main.js` lines 235-239): `if (!dev.lastSeen) continue;` (a missing or
zero `lastSeen` is falsy), then emit `device-offline` when
`now - dev.lastSeen > INACTIVITY_MS`. -/
def offlineEventFor (now : ℚ) (p : String × DeviceState) : Option Event :=
  match p.2.lastSeen with
  | none => none
  | some t =>
    if t = 0 then none
    else if now - t > INACTIVITY_MS then some (Event.deviceOffline p.1 p.2.tableId)
    else none

/-- The inactivity half of the 5000 ms `setInterval` callback (`main.js`
lines 233-240): a `device-offline` event per registry entry whose
`lastSeen` is truthy and more than `INACTIVITY_MS` in the past. -/
def inactivitySweep (now : ℚ) (r : Registry) : List Event :=
  r.filterMap (offlineEventFor now)

/-- Per-connection liveness state: the `ws.isAlive` flag plus whether
`terminate()` has been called. -/
structure ConnState where
  isAlive : Bool
  terminated : Bool
deriving DecidableEq, Repr

/-- On accept, `ws.isAlive = true` (`main.js` line 166). -/
def onConnection : ConnState := { isAlive := true, terminated := false }

/-- The `pong` listener: `ws.isAlive = true` (`main.js` line 167). -/
def onPong (c : ConnState) : ConnState := { c with isAlive := true }

/-- Inbound payload traffic: the message handler never touches `isAlive`. -/
def onPayload (c : ConnState) : ConnState := c

/-- The liveness half of the 5000 ms sweep (`main.js` lines 243-247):
an unresponsive client is terminated, otherwise its flag is cleared and a
ping is sent.  A terminated connection is out of `wss.clients` and is left
as is. -/
def livenessSweepConn (c : ConnState) : ConnState :=
  if c.terminated then c
  else if c.isAlive = false then { c with terminated := true }
  else { c with isAlive := false }

/-- The per-connection events that can touch the liveness flag. -/
inductive ConnEvent where
  | pong
  | payload
  | sweep
deriving DecidableEq, Repr

/-- One step of the per-connection liveness machine; a terminated connection
no longer receives pong or payload events. -/
def connStep (c : ConnState) : ConnEvent → ConnState
  | .pong => if c.terminated then c else onPong c
  | .payload => if c.terminated then c else onPayload c
  | .sweep => livenessSweepConn c

/-- A run of the per-connection liveness machine. -/
def connRun (c : ConnState) (es : List ConnEvent) : ConnState :=
  es.foldl connStep c

/-- The whole 5000 ms `setInterval` callback (`main.js` lines 233-248): it
reads the registry but never writes it, emits the offline notices and steps
every connection through the liveness sweep. -/
def sweepTick (now : ℚ) (r : Registry) (conns : List ConnState) :
    Registry × List Event × List ConnState :=
  (r, inactivitySweep now r, conns.map livenessSweepConn)

/-- The `ws.on('close', ...)` handler (`main.js` lines 223-225) only logs;
it performs no registry mutation. -/
def onCloseRegistry (r : Registry) : Registry := r

/-! ### Helper lemmas (shared by several claims) -/

/-- The test `jge` holds exactly on a present value at or above the bound. -/
lemma jge_eq_true_iff (a : Option ℚ) (b : ℚ) :
    jge a b = true ↔ ∃ x, a = some x ∧ b ≤ x := by
  cases a <;> simp [jge]

/-- Unfolding `lookup` over a cons cell. -/
lemma lookup_cons (p : String × DeviceState) (rest : Registry) (x : String) :
    lookup (p :: rest) x = if p.1 = x then some p.2 else lookup rest x := by
  by_cases h : p.1 = x <;> simp [lookup, List.find?, h]

/-- Evaluating `lookup` on the empty registry. -/
lemma lookup_nil (x : String) : lookup [] x = none := rfl

/-- Reading back an upserted key yields the new value; other keys are
untouched. -/
lemma lookup_upsert (r : Registry) (id : String) (dev : DeviceState) (x : String) :
    lookup (upsert r id dev) x = if x = id then some dev else lookup r x := by
  induction r with
  | nil =>
    by_cases h : x = id
    · simp [upsert, lookup_cons, lookup_nil, h]
    · have h2 : ¬id = x := fun hh => h hh.symm
      simp [upsert, lookup_cons, lookup_nil, h, h2]
  | cons p rest ih =>
    by_cases hp : p.1 = id
    · by_cases hx : x = id
      · subst hx; simp [upsert, hp, lookup_cons]
      · have hx2 : ¬id = x := fun hh => hx hh.symm
        have hpx : ¬p.1 = x := by rw [hp]; exact hx2
        simp [upsert, hp, lookup_cons, hx, hx2, hpx]
    · by_cases hx : x = id
      · subst hx
        simp [upsert, hp, lookup_cons, ih]
      · simp [upsert, hp, lookup_cons, ih, hx]

/-- Every element of an upserted registry is an old element or the new
entry. -/
lemma mem_upsert (r : Registry) (id : String) (dev : DeviceState)
    (q : String × DeviceState) (h : q ∈ upsert r id dev) : q ∈ r ∨ q = (id, dev) := by
  induction r with
  | nil => simp [upsert] at h; simp [h]
  | cons p rest ih =>
    by_cases hp : p.1 = id
    · simp only [upsert, if_pos hp, List.mem_cons] at h
      rcases h with h | h
      · right; exact h
      · left; simp [h]
    · simp only [upsert, if_neg hp, List.mem_cons] at h
      rcases h with h | h
      · left; simp [h]
      · rcases ih h with h2 | h2
        · left; simp [h2]
        · right; exact h2

/-- Under unique keys, the only entry an upserted registry holds at the
upserted key is the new value. -/
lemma mem_upsert_self (r : Registry) (id : String) (dev s : DeviceState)
    (hnd : (r.map Prod.fst).Nodup) (h : (id, s) ∈ upsert r id dev) : s = dev := by
  induction r with
  | nil => simp [upsert] at h; exact h
  | cons p rest ih =>
    have hnd2 : (rest.map Prod.fst).Nodup := (List.nodup_cons.mp hnd).2
    have hnotin : p.1 ∉ rest.map Prod.fst := (List.nodup_cons.mp hnd).1
    by_cases hp : p.1 = id
    · simp only [upsert, if_pos hp, List.mem_cons] at h
      rcases h with h | h
      · exact (Prod.mk.injEq _ _ _ _ ▸ h).2
      · exfalso
        exact hnotin (hp ▸ List.mem_map.mpr ⟨(id, s), h, rfl⟩)
    · simp only [upsert, if_neg hp, List.mem_cons] at h
      rcases h with h | h
      · exact absurd (congrArg Prod.fst h.symm) hp
      · exact ih hnd2 h

/-- Shape lemma: `checkForMismatch` emits nothing or a single `possible_sensor_issue`
alert for the triggering device. -/
lemma checkForMismatch_cases (r : Registry) (d : String) :
    checkForMismatch r d = [] ∨
      ∃ t n ps, checkForMismatch r d = [Event.sensorIssue d t n ps] := by
  unfold checkForMismatch
  split
  · left; rfl
  · split
    · left; rfl
    · split
      · left; rfl
      · dsimp only
        split
        · left; rfl
        · split
          · right; exact ⟨_, _, _, rfl⟩
          · left; rfl

/-- No `possible_sensor_issue` alert is a `noise_exceed` alert. -/
lemma filter_noiseExceed_checkForMismatch (r : Registry) (d : String) :
    (checkForMismatch r d).filter isNoiseExceed = [] := by
  rcases checkForMismatch_cases r d with h | ⟨t, n, ps, h⟩ <;> simp [h, isNoiseExceed]

/-- Filtering for `possible_sensor_issue` keeps everything
`checkForMismatch` emits. -/
lemma filter_sensorIssue_checkForMismatch (r : Registry) (d : String) :
    (checkForMismatch r d).filter isSensorIssue = checkForMismatch r d := by
  rcases checkForMismatch_cases r d with h | ⟨t, n, ps, h⟩ <;> simp [h, isSensorIssue]

/-- The message handler on an accepted message, written out: the registry
upsert, the telemetry echo, the optional threshold alert and the
peer-consistency alerts, in emission order. -/
lemma handleMessage_eq (now : ℚ) (wsId : Nat) (r : Registry) (m : IngestMsg) (d : String)
    (hd : m.deviceId = some d) (hne : ¬d = "") :
    handleMessage now wsId r (some m) =
      (upsert r d (upsertDevice now wsId m ((lookup r d).getD {})),
       Event.deviceData d m.tableId m.noiseLevel (classifiedSoundTypeOf m)
           (jsOrQ m.timestamp now) ::
         (if jge m.noiseLevel NOISE_THRESHOLD then
            [Event.noiseExceed d (upsertDevice now wsId m ((lookup r d).getD {})).tableId
              (jsOrZero m.noiseLevel) (classifiedSoundTypeOf m) (jsOrQ m.timestamp now)]
          else []) ++
         checkForMismatch (upsert r d (upsertDevice now wsId m ((lookup r d).getD {}))) d) := by
  simp [handleMessage, hd, hne]

/-- Claim C1: for every input with `noiseLevel` present, the classifier is the
total function given by the fixed ordered rule list of the spec, first match
wins, with missing `lowFreqEnergy`/`midFreqEnergy`/`highFreqEnergy`/`volatility`
defaulting to 0.2/0.2/0.2/0.3; no input is rejected. -/
theorem C1_classify_matches_ordered_rules (n : ℚ)
    (lo mi hi vo : Option ℚ) :
    (SoundClassifier.classify (some n) ⟨lo, mi, hi, vo⟩).soundType =
      classifySpecOrdered n lo mi hi vo := by
  simp [SoundClassifier.classify, classifyByHeuristic, classifySpecOrdered, jlt, jgt]

/-- Claim C5 counterexample: on `noiseLevel = 80`, `lowFreqEnergy = 0.5`,
`highFreqEnergy = 0.5`, `volatility = 0.9` (with `midFreqEnergy` defaulted),
the classifier does NOT return `typing`: rule 2 requires `highFreqEnergy`
strictly greater than 0.5, which fails at exactly 0.5. -/
theorem C5_counterexample :
    (SoundClassifier.classify (some 80)
        ⟨some (5/10), none, some (5/10), some (9/10)⟩).soundType ≠ "typing" := by
  norm_num [SoundClassifier.classify, classifyByHeuristic, jlt, jgt]
  decide

/-- Claim C5 (amended): on `noiseLevel = 80`, `lowFreqEnergy = 0.5`,
`highFreqEnergy = 0.5`, `volatility = 0.9` (with `midFreqEnergy` defaulted),
the classifier returns `vehicle`: rule 2 fails because `highFreqEnergy > 0.5`
is strict, and rule 3 (`lowFreqEnergy > 0.45` and `noiseLevel > 72`) wins. -/
theorem C5_amended_returns_vehicle :
    (SoundClassifier.classify (some 80)
        ⟨some (5/10), none, some (5/10), some (9/10)⟩).soundType = "vehicle" := by
  norm_num [SoundClassifier.classify, classifyByHeuristic, jlt, jgt]

/-- Claim C8: an inbound payload that cannot be decoded as JSON, or that
decodes without a (truthy) `deviceId`, is an atomic no-op: the registry is
left unchanged and no telemetry echo, alert or offline event is emitted for
it.  The handler has no code path closing the connection, and the catch
branch only logs, so the connection stays open. -/
theorem C8_malformed_input_is_noop (now : ℚ) (wsId : Nat) (r : Registry)
    (raw : Option IngestMsg)
    (h : raw = none ∨ ∃ m, raw = some m ∧ (m.deviceId = none ∨ m.deviceId = some "")) :
    handleMessage now wsId r raw = (r, []) := by
  rcases h with rfl | ⟨m, rfl, h | h⟩
  · rfl
  · simp [handleMessage, h]
  · simp [handleMessage, h]

/-- Witness for C8 at two concrete rejected payloads. -/
theorem C8_witness :
    handleMessage 1 0 [] none = ([], []) ∧
    handleMessage 1 0 [] (some { deviceId := some "" }) = ([], []) :=
  ⟨C8_malformed_input_is_noop 1 0 [] none (Or.inl rfl),
   C8_malformed_input_is_noop 1 0 [] (some { deviceId := some "" })
     (Or.inr ⟨_, rfl, Or.inr rfl⟩)⟩

/-- Claim C9: the registry never shrinks.  Message handling preserves every
existing key, the periodic sweep and the close handler leave the registry
untouched (closing a connection leaves the DeviceState intact), and a key
present after message handling was either already present or is the
handled message's own `deviceId` (creation only on first sighting). -/
theorem C9_registry_never_shrinks (now : ℚ) (wsId : Nat) (r : Registry)
    (raw : Option IngestMsg) (conns : List ConnState) (d : String)
    (h : (lookup r d).isSome = true) :
    (lookup (handleMessage now wsId r raw).1 d).isSome = true
    ∧ (sweepTick now r conns).1 = r
    ∧ onCloseRegistry r = r
    ∧ ∀ x, (lookup (handleMessage now wsId r raw).1 x).isSome = true →
        (lookup r x).isSome = true ∨ ∃ m, raw = some m ∧ m.deviceId = some x := by
  refine ⟨?_, rfl, rfl, ?_⟩
  · cases raw with
    | none => exact h
    | some m =>
      cases hd : m.deviceId with
      | none => simpa [handleMessage, hd] using h
      | some dd =>
        by_cases hne : dd = ""
        · simpa [handleMessage, hd, hne] using h
        · rw [handleMessage_eq now wsId r m dd hd hne]
          by_cases hx : d = dd <;> simp [lookup_upsert, hx, h]
  · intro x hx
    cases raw with
    | none => exact Or.inl hx
    | some m =>
      cases hd : m.deviceId with
      | none => simp [handleMessage, hd] at hx; exact Or.inl hx
      | some dd =>
        by_cases hne : dd = ""
        · simp [handleMessage, hd, hne] at hx; exact Or.inl hx
        · rw [handleMessage_eq now wsId r m dd hd hne] at hx
          by_cases hxd : x = dd
          · exact Or.inr ⟨m, rfl, hxd ▸ hd⟩
          · rw [lookup_upsert, if_neg hxd] at hx
            exact Or.inl hx

/-- Witness for C9 at a concrete registry and a concrete rejected payload. -/
theorem C9_witness :
    (lookup (handleMessage 5 0 [("d1", { lastSeen := some 1 })] none).1 "d1").isSome = true :=
  (C9_registry_never_shrinks 5 0 [("d1", { lastSeen := some 1 })] none [] "d1"
    (by simp [lookup_cons])).1

/-- Exact characterization of `checkForMismatch` once the triggering device
is registered with a truthy `tableId`: the alert fires iff there is at
least one same-table peer and the triggering noise is at or above the
threshold while every peer is strictly below `NOISE_THRESHOLD - 10`. -/
lemma checkForMismatch_eq (r : Registry) (d : String) (dev : DeviceState) (t : String)
    (h1 : lookup r d = some dev) (h2 : dev.tableId = some t) (h3 : ¬t = "") :
    checkForMismatch r d =
      if otherDevicesOn r d t ≠ [] ∧ NOISE_THRESHOLD ≤ jsOrZero dev.lastNoise ∧
          ∀ p ∈ otherDevicesOn r d t, jsOrZero p.2.lastNoise < NOISE_THRESHOLD - 10 then
        [Event.sensorIssue d t (jsOrZero dev.lastNoise)
          ((otherDevicesOn r d t).map (fun p => (p.1, jsOrZero p.2.lastNoise)))]
      else [] := by
  unfold checkForMismatch
  rw [h1]; dsimp only
  rw [h2]; dsimp only
  rw [if_neg h3]
  cases hO : otherDevicesOn r d t with
  | nil => simp
  | cons a as =>
    have hiff : ((decide (NOISE_THRESHOLD ≤ jsOrZero dev.lastNoise) &&
        List.all (a :: as) fun p =>
          decide (jsOrZero p.2.lastNoise < NOISE_THRESHOLD - 10)) = true)
        ↔ (a :: as ≠ [] ∧ NOISE_THRESHOLD ≤ jsOrZero dev.lastNoise ∧
           ∀ p ∈ a :: as, jsOrZero p.2.lastNoise < NOISE_THRESHOLD - 10) := by
      simp [List.all_eq_true]
    simp only [List.isEmpty_cons, Bool.false_eq_true, if_false]
    exact if_congr hiff rfl rfl

/-- Claim C2: after an accepted message from device `d` whose registry entry
carries a (truthy) `tableId`, a `possible_sensor_issue` alert is emitted iff
the entry's noise (`lastNoise || 0`) is at or above `NOISE_THRESHOLD = 65`,
the set of other same-table registry devices is non-empty, and every such
peer reads strictly below `NOISE_THRESHOLD - 10 = 55`; the alert carries the
device's id, table and noise plus the full peer list with each peer's id and
noise; with zero peers it never fires. -/
theorem C2_sensor_issue_characterization (now : ℚ) (wsId : Nat) (r : Registry)
    (m : IngestMsg) (d : String) (dev : DeviceState) (t : String)
    (hd : m.deviceId = some d) (hne : ¬d = "")
    (hdev : lookup (handleMessage now wsId r (some m)).1 d = some dev)
    (ht : dev.tableId = some t) (htne : ¬t = "") :
    (handleMessage now wsId r (some m)).2.filter isSensorIssue =
      if otherDevicesOn (handleMessage now wsId r (some m)).1 d t ≠ [] ∧
          NOISE_THRESHOLD ≤ jsOrZero dev.lastNoise ∧
          ∀ p ∈ otherDevicesOn (handleMessage now wsId r (some m)).1 d t,
            jsOrZero p.2.lastNoise < NOISE_THRESHOLD - 10 then
        [Event.sensorIssue d t (jsOrZero dev.lastNoise)
          ((otherDevicesOn (handleMessage now wsId r (some m)).1 d t).map
            (fun p => (p.1, jsOrZero p.2.lastNoise)))]
      else [] := by
  have he := handleMessage_eq now wsId r m d hd hne
  rw [he] at hdev ⊢
  have hfilter :
      (Event.deviceData d m.tableId m.noiseLevel (classifiedSoundTypeOf m)
          (jsOrQ m.timestamp now) ::
        (if jge m.noiseLevel NOISE_THRESHOLD then
          [Event.noiseExceed d (upsertDevice now wsId m ((lookup r d).getD {})).tableId
            (jsOrZero m.noiseLevel) (classifiedSoundTypeOf m) (jsOrQ m.timestamp now)]
         else []) ++
        checkForMismatch (upsert r d (upsertDevice now wsId m ((lookup r d).getD {}))) d).filter
          isSensorIssue =
      checkForMismatch (upsert r d (upsertDevice now wsId m ((lookup r d).getD {}))) d := by
    by_cases hj : jge m.noiseLevel NOISE_THRESHOLD = true <;>
      simp [hj, isSensorIssue, filter_sensorIssue_checkForMismatch]
  rw [hfilter]
  exact checkForMismatch_eq _ d dev t hdev ht htne

/-- Witness for C2: table `T` holds peer `p1` at noise 30; device `d1`
reports noise 70 and the alert fires listing `p1`. -/
theorem C2_witness :
    (handleMessage 1000 1
        [("p1", { lastSeen := some 1, tableId := some "T", lastNoise := some 30 })]
        (some { deviceId := some "d1", tableId := some "T", noiseLevel := some 70 })).2.filter
      isSensorIssue =
      [Event.sensorIssue "d1" "T" 70 [("p1", 30)]] := by
  have hpost : (handleMessage 1000 1
      [("p1", { lastSeen := some 1, tableId := some "T", lastNoise := some 30 })]
      (some { deviceId := some "d1", tableId := some "T", noiseLevel := some 70 })).1 =
      [("p1", { lastSeen := some 1, tableId := some "T", lastNoise := some 30 }),
       ("d1", { lastSeen := some 1000, tableId := some "T", lastNoise := some 70,
                ws := some 1 })] := by decide
  have hO : otherDevicesOn
      [("p1", { lastSeen := some 1, tableId := some "T", lastNoise := some 30 }),
       ("d1", { lastSeen := some 1000, tableId := some "T", lastNoise := some 70,
                ws := some 1 })] "d1" "T" =
      [("p1", { lastSeen := some 1, tableId := some "T", lastNoise := some 30 })] := by decide
  have h := C2_sensor_issue_characterization 1000 1
    [("p1", { lastSeen := some 1, tableId := some "T", lastNoise := some 30 })]
    { deviceId := some "d1", tableId := some "T", noiseLevel := some 70 }
    "d1"
    { lastSeen := some 1000, tableId := some "T", lastNoise := some 70, ws := some 1 }
    "T" rfl (by decide)
    (by rw [hpost]; decide)
    rfl (by decide)
  rw [h, hpost, hO, if_pos]
  · decide
  · refine ⟨by decide, by decide, ?_⟩
    intro p hp
    rw [List.mem_singleton] at hp
    rw [hp]
    norm_num [jsOrZero, NOISE_THRESHOLD]

/-- Claim C10: a same-table peer with no recorded noise reading is treated
as reading 0 (`lastNoise || 0`): it satisfies the all-peers-quiet test, so a
`possible_sensor_issue` alert can fire, and the peer appears in the alert's
peer list with noise 0. -/
theorem C10_missing_peer_noise_counts_as_zero (r : Registry) (d : String)
    (dev : DeviceState) (t : String)
    (h1 : lookup r d = some dev) (h2 : dev.tableId = some t) (h3 : ¬t = "")
    (h4 : NOISE_THRESHOLD ≤ jsOrZero dev.lastNoise)
    (h5 : otherDevicesOn r d t ≠ [])
    (h6 : ∀ p ∈ otherDevicesOn r d t, p.2.lastNoise = none) :
    checkForMismatch r d =
      [Event.sensorIssue d t (jsOrZero dev.lastNoise)
        ((otherDevicesOn r d t).map (fun p => (p.1, 0)))] := by
  have hall : ∀ p ∈ otherDevicesOn r d t,
      jsOrZero p.2.lastNoise < NOISE_THRESHOLD - 10 := by
    intro p hp
    rw [h6 p hp]
    norm_num [jsOrZero, NOISE_THRESHOLD]
  rw [checkForMismatch_eq r d dev t h1 h2 h3, if_pos ⟨h5, h4, hall⟩]
  have hmap : (otherDevicesOn r d t).map (fun p => (p.1, jsOrZero p.2.lastNoise)) =
      (otherDevicesOn r d t).map (fun p => (p.1, (0 : ℚ))) :=
    List.map_congr_left (fun p hp => by simp [h6 p hp, jsOrZero])
  rw [hmap]

/-- Witness for C10: `d1` at noise 70 on table `T`, peer `p1` with no
recorded noise; the alert fires listing `p1` at noise 0. -/
theorem C10_witness :
    checkForMismatch
        [("d1", { tableId := some "T", lastNoise := some 70 }),
         ("p1", { tableId := some "T" })] "d1" =
      [Event.sensorIssue "d1" "T" 70 [("p1", 0)]] := by
  have hO : otherDevicesOn
      [("d1", { tableId := some "T", lastNoise := some 70 }),
       ("p1", { tableId := some "T" })] "d1" "T" =
      [("p1", { tableId := some "T" })] := by decide
  have h := C10_missing_peer_noise_counts_as_zero
    [("d1", { tableId := some "T", lastNoise := some 70 }),
     ("p1", { tableId := some "T" })] "d1"
    { tableId := some "T", lastNoise := some 70 } "T"
    (by decide) rfl (by decide)
    (by decide)
    (by rw [hO]; decide)
    (by intro p hp; rw [hO, List.mem_singleton] at hp; rw [hp])
  rw [h, hO]
  decide

/-- Claim C3: per accepted message, the `noise_exceed` branch fires exactly
when the message's `noiseLevel` is present and at or above
`NOISE_THRESHOLD = 65` (first conjunct unfolds the JS comparison), and then
emits exactly one alert carrying the device id, the post-upsert registry
`tableId`, the message's noise level, the classified sound type and the
message timestamp (receipt time when absent or 0); below the threshold, or
with no noise level, none is emitted.  The handler keeps no
hysteresis/cooldown state, so the outcome depends only on the message. -/
theorem C3_noise_exceed_per_message (now : ℚ) (wsId : Nat) (r : Registry) (m : IngestMsg)
    (d : String) (hd : m.deviceId = some d) (hne : ¬d = "") :
    (jge m.noiseLevel NOISE_THRESHOLD = true ↔
      ∃ v, m.noiseLevel = some v ∧ NOISE_THRESHOLD ≤ v)
    ∧ (handleMessage now wsId r (some m)).2.filter isNoiseExceed =
        (if jge m.noiseLevel NOISE_THRESHOLD then
          [Event.noiseExceed d (upsertDevice now wsId m ((lookup r d).getD {})).tableId
            (jsOrZero m.noiseLevel) (classifiedSoundTypeOf m) (jsOrQ m.timestamp now)]
        else []) := by
  refine ⟨jge_eq_true_iff _ _, ?_⟩
  rw [handleMessage_eq now wsId r m d hd hne]
  by_cases hj : jge m.noiseLevel NOISE_THRESHOLD = true
  · simp [hj, isNoiseExceed, filter_noiseExceed_checkForMismatch]
  · simp [hj, isNoiseExceed, filter_noiseExceed_checkForMismatch]

/-- Witness for C3: a qualifying message (noise 80 at threshold 65) yields
exactly its one `noise_exceed` alert. -/
theorem C3_witness :
    (handleMessage 50 2 []
        (some { deviceId := some "d9", tableId := some "T2", noiseLevel := some 80,
                timestamp := some 42 })).2.filter isNoiseExceed =
      [Event.noiseExceed "d9" (some "T2") 80 "unknown" 42] := by
  have h := (C3_noise_exceed_per_message 50 2 []
    { deviceId := some "d9", tableId := some "T2", noiseLevel := some 80,
      timestamp := some 42 } "d9" rfl (by decide)).2
  rw [h, if_pos (by decide)]
  decide

/-- Claim C4 counterexample: with prior state `lastSeen = 500`,
`lastNoise = 50` for `d1`, a message carrying `timestamp = 1000` and no
`noiseLevel`, handled at receipt time 2000, leaves `lastSeen = 2000` (the
receipt time, not the message timestamp as claimed) and overwrites
`lastNoise` with the absent value (not retained as claimed). -/
theorem C4_counterexample :
    ∃ dv, lookup (handleMessage 2000 7
        [("d1", { lastSeen := some 500, lastNoise := some 50 })]
        (some { deviceId := some "d1", timestamp := some 1000 })).1 "d1" = some dv
      ∧ dv.lastSeen = some 2000 ∧ dv.lastSeen ≠ some 1000
      ∧ dv.lastNoise = none ∧ dv.lastNoise ≠ some 50 := by
  refine ⟨{ lastSeen := some 2000, ws := some 7 }, by decide, rfl, by decide, rfl, by decide⟩

/-- Claim C4 (amended): the registry upsert for an accepted message sets
`lastSeen` to the receipt time (ignoring any message timestamp), sets
`lastNoise` to the message's `noiseLevel` even when absent (overwriting the
prior value with undefined), overwrites `tableId` only when the message
supplies a non-empty one (otherwise the prior value is retained), leaves
`lastSoundType` and `classification` unchanged when the message has neither
`audioFeatures` nor a `soundType`, and leaves every other device's entry
unchanged. -/
theorem C4_amended_upsert_semantics (now : ℚ) (wsId : Nat) (r : Registry) (m : IngestMsg)
    (d : String) (hd : m.deviceId = some d) (hne : ¬d = "") :
    ∃ dv, lookup (handleMessage now wsId r (some m)).1 d = some dv
      ∧ dv.lastSeen = some now
      ∧ dv.lastNoise = m.noiseLevel
      ∧ (∀ s, m.tableId = some s → ¬s = "" → dv.tableId = some s)
      ∧ ((m.tableId = none ∨ m.tableId = some "") →
          dv.tableId = ((lookup r d).getD {}).tableId)
      ∧ (m.audioFeatures = none → m.soundType = none →
          dv.lastSoundType = ((lookup r d).getD {}).lastSoundType
          ∧ dv.classification = ((lookup r d).getD {}).classification)
      ∧ ∀ x, ¬x = d → lookup (handleMessage now wsId r (some m)).1 x = lookup r x := by
  refine ⟨upsertDevice now wsId m ((lookup r d).getD {}), ?_, rfl, rfl, ?_, ?_, ?_, ?_⟩
  · rw [handleMessage_eq now wsId r m d hd hne]
    rw [lookup_upsert, if_pos rfl]
  · intro s hs hsne
    simp [upsertDevice, jsOrStr, hs, hsne]
  · rintro (h | h) <;> simp [upsertDevice, jsOrStr, h]
  · intro haf hst
    simp [upsertDevice, classificationOf, haf, hst]
  · intro x hx
    rw [handleMessage_eq now wsId r m d hd hne]
    rw [lookup_upsert, if_neg hx]

/-- Witness for C4 at the counterexample's concrete input: the amended
behavior at receipt time 2000. -/
theorem C4_witness :
    ∃ dv, lookup (handleMessage 2000 7
        [("d1", { lastSeen := some 500, lastNoise := some 50 })]
        (some { deviceId := some "d1", timestamp := some 1000 })).1 "d1" = some dv
      ∧ dv.lastSeen = some 2000 ∧ dv.lastNoise = none := by
  obtain ⟨dv, h1, h2, h3, -⟩ := C4_amended_upsert_semantics 2000 7
    [("d1", { lastSeen := some 500, lastNoise := some 50 })]
    { deviceId := some "d1", timestamp := some 1000 } "d1" rfl (by decide)
  exact ⟨dv, h1, h2, h3⟩

/-- When the per-entry sweep body produces an event. -/
lemma offlineEventFor_eq_some (now : ℚ) (p : String × DeviceState) (e : Event) :
    offlineEventFor now p = some e ↔
      ∃ t, p.2.lastSeen = some t ∧ ¬t = 0 ∧ now - t > INACTIVITY_MS ∧
        e = Event.deviceOffline p.1 p.2.tableId := by
  unfold offlineEventFor
  cases hL : p.2.lastSeen with
  | none => simp
  | some t =>
    by_cases h0 : t = 0
    · simp [h0]
    · by_cases hgt : now - t > INACTIVITY_MS
      · simp [h0, hgt, eq_comm]
      · simp [h0, hgt]

/-- Membership in the inactivity sweep's output. -/
lemma mem_inactivitySweep (now : ℚ) (r : Registry) (e : Event) :
    e ∈ inactivitySweep now r ↔
      ∃ p ∈ r, ∃ t, p.2.lastSeen = some t ∧ ¬t = 0 ∧ now - t > INACTIVITY_MS ∧
        e = Event.deviceOffline p.1 p.2.tableId := by
  unfold inactivitySweep
  rw [List.mem_filterMap]
  constructor
  · rintro ⟨p, hp, hf⟩
    exact ⟨p, hp, (offlineEventFor_eq_some now p e).mp hf⟩
  · rintro ⟨p, hp, ht⟩
    exact ⟨p, hp, (offlineEventFor_eq_some now p e).mpr ht⟩

/-- Claim C6: on a sweep at time `now` over a registry whose `lastSeen`
stamps are honest (never the falsy 0, as produced by `Date.now()`), a
`device_offline` event with a device's id and table is emitted exactly for
the registry devices whose `lastSeen` lies more than `INACTIVITY_MS =
15000` before `now`; the sweep is stateless, so it re-fires at any later
sweep time while the device stays silent; and an accepted message from the
device resets `lastSeen` to its receipt time, so no sweep within the next
`INACTIVITY_MS` emits for it. -/
theorem C6_inactivity_sweep (now : ℚ) (r : Registry)
    (h0 : ∀ p ∈ r, p.2.lastSeen ≠ some 0)
    (hnd : (r.map Prod.fst).Nodup) :
    (∀ id tbl, Event.deviceOffline id tbl ∈ inactivitySweep now r ↔
       ∃ dev, (id, dev) ∈ r ∧ dev.tableId = tbl ∧
         ∃ t, dev.lastSeen = some t ∧ now - t > INACTIVITY_MS)
    ∧ (∀ now₂, now ≤ now₂ → ∀ id tbl,
        Event.deviceOffline id tbl ∈ inactivitySweep now r →
        Event.deviceOffline id tbl ∈ inactivitySweep now₂ r)
    ∧ (∀ wsId m d, m.deviceId = some d → ¬d = "" →
        ∀ now₂ tbl, now₂ - now ≤ INACTIVITY_MS →
          Event.deviceOffline d tbl ∉
            inactivitySweep now₂ (handleMessage now wsId r (some m)).1) := by
  refine ⟨?_, ?_, ?_⟩
  · intro id tbl
    rw [mem_inactivitySweep]
    constructor
    · rintro ⟨p, hp, t, hls, h0t, hgt, he⟩
      rw [Event.deviceOffline.injEq] at he
      obtain ⟨h1, h2⟩ := he
      refine ⟨p.2, ?_, h2.symm, t, hls, hgt⟩
      rw [h1, Prod.mk.eta]
      exact hp
    · rintro ⟨dev, hmem, htbl, t, hls, hgt⟩
      refine ⟨(id, dev), hmem, t, hls, ?_, hgt, by rw [htbl]⟩
      intro hzero
      exact h0 _ hmem (hzero ▸ hls)
  · intro now₂ hle id tbl hmem
    rw [mem_inactivitySweep] at hmem ⊢
    obtain ⟨p, hp, t, hls, h0t, hgt, he⟩ := hmem
    exact ⟨p, hp, t, hls, h0t, by linarith, he⟩
  · intro wsId m d hd hne now₂ tbl hle hmem
    rw [mem_inactivitySweep] at hmem
    obtain ⟨p, hp, t, hls, h0t, hgt, he⟩ := hmem
    have hp2 : p ∈ upsert r d (upsertDevice now wsId m ((lookup r d).getD {})) := by
      rw [handleMessage_eq now wsId r m d hd hne] at hp
      exact hp
    rw [Event.deviceOffline.injEq] at he
    obtain ⟨h1, h2⟩ := he
    have hdp : (d, p.2) = p := by rw [h1]
    have hmem2 : (d, p.2) ∈ upsert r d (upsertDevice now wsId m ((lookup r d).getD {})) := by
      rw [hdp]
      exact hp2
    have hself := mem_upsert_self r d (upsertDevice now wsId m ((lookup r d).getD {}))
      p.2 hnd hmem2
    rw [hself] at hls
    simp only [upsertDevice, Option.some.injEq] at hls
    rw [← hls] at hgt
    linarith

/-- Witness for C6: a device last seen at time 100 is reported offline at a
sweep at time 20000. -/
theorem C6_witness :
    Event.deviceOffline "a" (some "T") ∈
      inactivitySweep 20000 [("a", { lastSeen := some 100, tableId := some "T" })] := by
  refine ((C6_inactivity_sweep 20000 [("a", { lastSeen := some 100, tableId := some "T" })]
      ?_ (by decide)).1 "a" (some "T")).mpr
    ⟨{ lastSeen := some 100, tableId := some "T" }, by decide, rfl, 100, rfl,
      by norm_num [INACTIVITY_MS]⟩
  intro p hp
  rw [List.mem_singleton] at hp
  rw [hp]
  decide

/-- Runs consisting only of payload traffic leave the liveness state
untouched: the message handler never writes `isAlive`. -/
lemma connRun_payload_only (c : ConnState) (es : List ConnEvent)
    (h : ∀ e ∈ es, e ≠ ConnEvent.pong ∧ e ≠ ConnEvent.sweep) :
    connRun c es = c := by
  induction es generalizing c with
  | nil => rfl
  | cons e rest ih =>
    have he := h e (List.mem_cons_self e rest)
    have hstep : connStep c e = c := by
      cases e with
      | pong => exact absurd rfl he.1
      | payload => simp [connStep, onPayload]
      | sweep => exact absurd rfl he.2
    show connRun (connStep c e) rest = c
    rw [hstep]
    exact ih c (fun x hx => h x (List.mem_cons_of_mem e hx))

/-- Claim C7 counterexample: the liveness flag is NOT set by inbound payload
traffic — only the pong listener sets it.  A connection that is accepted,
swept once (flag cleared, ping sent), then produces payload traffic but no
pong, is terminated at the second sweep, and the payload step leaves a
cleared flag cleared. -/
theorem C7_counterexample :
    (connRun onConnection [ConnEvent.sweep, ConnEvent.payload, ConnEvent.sweep]).terminated
        = true
    ∧ (connStep { isAlive := false, terminated := false } ConnEvent.payload).isAlive
        = false := by
  exact ⟨rfl, rfl⟩

/-- Claim C7 (amended): each connection's liveness flag is set true on
accept and on receipt of a pong (not on payload traffic); the periodic sweep
forcibly terminates a connection whose flag is false, and otherwise clears
the flag immediately before sending a fresh ping — so a connection that
produces no probe acknowledgment between two consecutive sweeps (payload
traffic or not) is never left alive past the second sweep. -/
theorem C7_amended_liveness (c : ConnState) (es : List ConnEvent)
    (h : ∀ e ∈ es, e ≠ ConnEvent.pong ∧ e ≠ ConnEvent.sweep) :
    onConnection.isAlive = true
    ∧ (∀ d : ConnState, d.terminated = false → (connStep d ConnEvent.pong).isAlive = true)
    ∧ (∀ d : ConnState, d.terminated = false → d.isAlive = false →
        (livenessSweepConn d).terminated = true)
    ∧ (∀ d : ConnState, d.terminated = false → d.isAlive = true →
        livenessSweepConn d = { d with isAlive := false })
    ∧ (connStep (connRun (connStep c ConnEvent.sweep) es) ConnEvent.sweep).terminated
        = true := by
  refine ⟨rfl, ?_, ?_, ?_, ?_⟩
  · intro d hd
    simp [connStep, hd, onPong]
  · intro d hd ha
    simp [livenessSweepConn, hd, ha]
  · intro d hd ha
    simp [livenessSweepConn, hd, ha]
  · rw [connRun_payload_only (connStep c ConnEvent.sweep) es h]
    rcases c with ⟨ia, tm⟩
    cases ia <;> cases tm <;> rfl

/-- Witness for C7 at a concrete connection and a payload-only trace. -/
theorem C7_witness :
    (connStep (connRun (connStep onConnection ConnEvent.sweep) [ConnEvent.payload])
        ConnEvent.sweep).terminated = true :=
  (C7_amended_liveness onConnection [ConnEvent.payload] (by decide)).2.2.2.2

end NoiseMonitor
